import Mathlib

/-!
Shallow embedding of the core logic of the jkmilkbooth dairy application
(`src/app.py`): the rate-lookup tables and `find_rate`, the record-creation
and edit handlers (`add_collection`, `quick_add`, `add_sale`,
`edit_collection`), the payment-cycle aggregator
(`calculate_payment_cycles`), and the supplier balance computation.

Python floats are modelled as exact rationals (all chart keys and values
are one- or two-decimal numbers, for which the float computations in the
source agree with exact decimal arithmetic on every claim-relevant input),
Python ints as `Int`/`Nat`, dict `.get` as association-list lookup, and
`None` as `Option.none`.
-/

/-- Model of Python 3 `round(x)` on a real value: round half to even
(banker's rounding). -/
def pyRound (x : ℚ) : ℤ :=
  let f : ℤ := ⌊x⌋
  let frac : ℚ := x - f
  if frac < 1/2 then f
  else if 1/2 < frac then f + 1
  else if f % 2 = 0 then f else f + 1

/-- Model of Python `round(x, 1)` (round to one decimal):
`round(x*10)/10`. -/
def pyRound1 (x : ℚ) : ℚ := (pyRound (x * 10) : ℚ) / 10

/-- Association-list lookup modelling Python `dict.get(k)` (returns `None`
when the key is absent). -/
def chartGet (chart : List (ℚ × ℚ)) (k : ℚ) : Option ℚ :=
  match chart with
  | [] => none
  | (key, v) :: rest => if k = key then some v else chartGet rest k

/-- `NEW_RATES_START_DATE` from `src/app.py`: the effective date of the new
buffalo rates (February 1, 2026), compared against ISO date strings. -/
def NEW_RATES_START_DATE : String := "2026-02-01"

/-- `BUFFALO_RATE_CHART` from `src/app.py` (new rates from 01-Feb-2026),
keyed by fat percentage quantized to one decimal. -/
def BUFFALO_RATE_CHART : List (ℚ × ℚ) :=
  [(5.0, 40.0), (5.1, 40.8), (5.2, 41.6), (5.3, 42.4), (5.4, 43.2),
   (5.5, 44.0), (5.6, 44.8), (5.7, 45.6), (5.8, 46.4), (5.9, 47.2),
   (6.0, 48.0), (6.1, 48.8), (6.2, 49.6), (6.3, 50.4), (6.4, 51.2),
   (6.5, 52.0), (6.6, 52.8), (6.7, 53.6), (6.8, 54.4), (6.9, 55.2),
   (7.0, 56.0), (7.1, 56.8), (7.2, 57.6), (7.3, 58.4), (7.4, 59.2),
   (7.5, 60.0), (7.6, 60.8), (7.7, 61.6), (7.8, 62.4), (7.9, 63.2),
   (8.0, 64.0), (8.1, 64.8), (8.2, 65.6), (8.3, 66.4), (8.4, 67.2),
   (8.5, 68.0), (8.6, 68.8), (8.7, 69.6), (8.8, 70.4), (8.9, 71.2),
   (9.0, 72.0), (9.1, 72.8), (9.2, 73.6), (9.3, 74.4), (9.4, 75.2),
   (9.5, 76.0), (9.6, 76.8), (9.7, 77.6), (9.8, 78.4), (9.9, 79.2),
   (10.0, 80.0)]

/-- `COW_RATE_CHART` from `src/app.py` (unchanged cow rates). -/
def COW_RATE_CHART : List (ℚ × ℚ) :=
  [(3.0, 25.30), (3.1, 25.53), (3.2, 25.76), (3.3, 25.99), (3.4, 26.22),
   (3.5, 26.45), (3.6, 26.68), (3.7, 26.91), (3.8, 27.14), (3.9, 27.37),
   (4.0, 27.60), (4.1, 27.83), (4.2, 28.06), (4.3, 28.29), (4.4, 28.52),
   (4.5, 28.75), (4.6, 28.98), (4.7, 29.21), (4.8, 29.44), (4.9, 29.67),
   (5.0, 29.90), (5.1, 30.13), (5.2, 30.36), (5.3, 30.59), (5.4, 30.82),
   (5.5, 31.05), (5.6, 31.28), (5.7, 31.51), (5.8, 31.74), (5.9, 31.97),
   (6.0, 32.20)]

/-- `find_rate(fat, milk_type, transaction_date)` from `src/app.py`.
Quantizes `fat` to `round(fat*10)/10`, uses the cow chart for cow milk,
and for buffalo milk branches on the transaction date against
`NEW_RATES_START_DATE` — but, as in the source, BOTH branches return the
new `BUFFALO_RATE_CHART` (the pre-threshold branch carries the comment
"For now, use new rates (we'll fix with migration)").  A `None` fat gives
`None`; an empty-string date is falsy in Python and takes the no-date
branch. -/
def find_rate (fat : Option ℚ) (milk_type : String) (transaction_date : Option String) :
    Option ℚ :=
  match fat with
  | none => none
  | some f =>
    let k : ℚ := (pyRound (f * 10) : ℚ) / 10
    if milk_type = "cow" then
      chartGet COW_RATE_CHART k
    else
      match transaction_date with
      | some d =>
        if d = "" then chartGet BUFFALO_RATE_CHART k
        else if NEW_RATES_START_DATE ≤ d then chartGet BUFFALO_RATE_CHART k
        else chartGet BUFFALO_RATE_CHART k
      | none => chartGet BUFFALO_RATE_CHART k

/-- Helper: for a non-cow milk type every date branch of `find_rate` returns
the same (new) buffalo chart lookup. -/
theorem find_rate_not_cow (f : ℚ) (mt : String) (d : Option String) (h : mt ≠ "cow") :
    find_rate (some f) mt d = chartGet BUFFALO_RATE_CHART ((pyRound (f * 10) : ℚ) / 10) := by
  unfold find_rate
  dsimp only
  rw [if_neg h]
  cases d with
  | none => rfl
  | some dd => simp only [ite_self]

/-- Helper: for cow milk `find_rate` is the cow-chart lookup, whatever the
date. -/
theorem find_rate_cow (f : ℚ) (d : Option String) :
    find_rate (some f) "cow" d = chartGet COW_RATE_CHART ((pyRound (f * 10) : ℚ) / 10) := by
  unfold find_rate
  dsimp only
  rw [if_pos rfl]

/-- Model of Python's `str.split('-')` on a character list: splits at every
`'-'`, keeping empty pieces (so `"".split('-') == ['']`). -/
def splitDash (cs : List Char) : List (List Char) :=
  match cs with
  | [] => [[]]
  | c :: rest =>
    let r := splitDash rest
    if c = '-' then [] :: r
    else
      match r with
      | [] => [[c]]
      | h :: t => (c :: h) :: t

/-- Value of a list of ASCII digit characters, most significant first. -/
def digitsVal (cs : List Char) : ℕ :=
  cs.foldl (fun a c => a * 10 + (c.toNat - 48)) 0

/-- Model of Python's `int(s)` on a character list: optional surrounding
whitespace, an optional single sign, then a nonempty run of ASCII digits;
anything else raises `ValueError`, modelled as `none`.  (Unicode digits
and underscore separators, which CPython also accepts, do not occur in
this application's date strings and are not modelled.) -/
def pyIntOfChars (cs : List Char) : Option ℤ :=
  let cs := ((cs.dropWhile Char.isWhitespace).reverse.dropWhile Char.isWhitespace).reverse
  match cs with
  | [] => none
  | '-' :: ds => if ds ≠ [] ∧ ds.all Char.isDigit then some (-(digitsVal ds : ℤ)) else none
  | '+' :: ds => if ds ≠ [] ∧ ds.all Char.isDigit then some ((digitsVal ds : ℤ)) else none
  | ds => if ds.all Char.isDigit then some ((digitsVal ds : ℤ)) else none

/-- Model of `int(date.split('-')[2])` from `calculate_payment_cycles` in
`src/app.py`: `none` when the date string has fewer than three
`'-'`-separated pieces (`IndexError`) or the third piece is not a valid
integer literal (`ValueError`). -/
def parseDay (date : String) : Option ℤ :=
  match (splitDash date.toList)[2]? with
  | none => none
  | some ds => pyIntOfChars ds

/-- Model of Python's `s.startswith(p)`. -/
def strStartsWith (s p : String) : Bool :=
  p.toList.isPrefixOf s.toList

/-- Model of the `{n:02d}` format directive: decimal, zero-padded to at
least two digits. -/
def pad2 (n : ℕ) : String :=
  if n < 10 then "0" ++ toString n else toString n

/-- The month filter string `f"{year}-{month:02d}"` from
`calculate_payment_cycles`. -/
def monthStr (year month : ℕ) : String :=
  toString year ++ "-" ++ pad2 month

/-- Gregorian leap-year test, as used by Python's `calendar.monthrange`. -/
def isLeapYear (y : ℕ) : Bool :=
  (y % 4 == 0 && y % 100 != 0) || y % 400 == 0

/-- `get_last_day_of_month(year, month)` from `src/app.py`, i.e.
`calendar.monthrange(year, month)[1]` (defined for months 1–12). -/
def get_last_day_of_month (year month : ℕ) : ℕ :=
  if month = 2 then (if isLeapYear year then 29 else 28)
  else if month = 4 ∨ month = 6 ∨ month = 9 ∨ month = 11 then 30
  else 31

/-- A row of the `collections` table of `src/app.py` (fields used by the
embedded handlers; `id` and `created_at` are omitted). -/
structure Collection where
  supplier_id : ℕ
  date : String
  session : String
  liters : ℚ
  fat : ℚ
  milk_type : String
  rate_per_liter : ℚ
  amount : ℤ
  note : Option String
deriving DecidableEq

/-- A row of the `sales` table of `src/app.py`. -/
structure Sale where
  customer_id : ℕ
  date : String
  session : String
  liters : ℚ
  fat : ℚ
  milk_type : String
  rate_per_liter : ℚ
  amount : ℤ
  note : Option String
deriving DecidableEq

/-- A row of the `withdrawals` table of `src/app.py`. -/
structure Withdrawal where
  supplier_id : ℕ
  date : String
  amount : ℤ
  note : Option String
deriving DecidableEq

/-- One `{'liters': …, 'amount': …, 'count': …}` sub-dictionary of a
payment cycle. -/
structure SessionTot where
  liters : ℚ
  amount : ℤ
  count : ℕ
deriving DecidableEq

/-- One cycle dictionary of `calculate_payment_cycles` (`cstart`/`cend`
stand for the `'start'`/`'end'` keys). -/
structure PayCycle where
  cstart : String
  cend : String
  morning : SessionTot
  evening : SessionTot
  total_liters : ℚ
  total_amount : ℤ
deriving DecidableEq

/-- The `{'cycle_1': …, 'cycle_2': …}` dictionary returned by
`calculate_payment_cycles`. -/
structure PayCycles where
  cycle_1 : PayCycle
  cycle_2 : PayCycle
deriving DecidableEq

/-- The initial cycles dictionary built by `calculate_payment_cycles`
before the collection loop. -/
def initCycles (year month : ℕ) : PayCycles :=
  { cycle_1 :=
      { cstart := monthStr year month ++ "-01"
        cend := monthStr year month ++ "-15"
        morning := ⟨0, 0, 0⟩
        evening := ⟨0, 0, 0⟩
        total_liters := 0
        total_amount := 0 }
    cycle_2 :=
      { cstart := monthStr year month ++ "-16"
        cend := monthStr year month ++ "-" ++ pad2 (get_last_day_of_month year month)
        morning := ⟨0, 0, 0⟩
        evening := ⟨0, 0, 0⟩
        total_liters := 0
        total_amount := 0 } }

/-- The per-collection update of one cycle in `calculate_payment_cycles`:
add to the morning or evening sub-totals by session, then to the cycle
totals. -/
def cycleAdd (cy : PayCycle) (c : Collection) : PayCycle :=
  let cy :=
    if c.session = "morning" then
      { cy with morning := ⟨cy.morning.liters + c.liters, cy.morning.amount + c.amount,
                            cy.morning.count + 1⟩ }
    else
      { cy with evening := ⟨cy.evening.liters + c.liters, cy.evening.amount + c.amount,
                            cy.evening.count + 1⟩ }
  { cy with total_liters := cy.total_liters + c.liters
            total_amount := cy.total_amount + c.amount }

/-- One iteration of the collection loop of `calculate_payment_cycles`:
parse the day component; on failure (`ValueError`/`IndexError`) skip the
record, otherwise update cycle 1 for days 1–15 and cycle 2 for every other
parsed day. -/
def cycleStep (cys : PayCycles) (c : Collection) : PayCycles :=
  match parseDay c.date with
  | none => cys
  | some day =>
    if 1 ≤ day ∧ day ≤ 15 then { cys with cycle_1 := cycleAdd cys.cycle_1 c }
    else { cys with cycle_2 := cycleAdd cys.cycle_2 c }

/-- The month filter of `calculate_payment_cycles`:
`[c for c in collections if c.date.startswith(month_str)]`. -/
def monthly_collections (collections : List Collection) (year month : ℕ) : List Collection :=
  collections.filter (fun c => strStartsWith c.date (monthStr year month))

/-- `calculate_payment_cycles(collections, year, month)` from
`src/app.py`: filter to the records whose date starts with
`f"{year}-{month:02d}"`, then fold the per-collection update over them. -/
def calculate_payment_cycles (collections : List Collection) (year month : ℕ) : PayCycles :=
  (monthly_collections collections year month).foldl cycleStep (initCycles year month)

/-- The rejection message flashed by `add_collection`, `quick_add` and
`add_sale` when `find_rate` returns `None`:
`f"Rate not found for {milk_type} milk with fat {fat}"` (the numeric
rendering of `fat` is abstracted by `toString`). -/
def rateNotFoundMsg (milk_type : String) (fat : ℚ) : String :=
  "Rate not found for " ++ milk_type ++ " milk with fat " ++ toString fat

/-- Outcome of a collection-table handler: the resulting stored list and
the flashed error, if the request was rejected. -/
structure CollectionsResult where
  state : List Collection
  error : Option String
deriving DecidableEq

/-- Outcome of a sale-table handler. -/
structure SalesResult where
  state : List Sale
  error : Option String
deriving DecidableEq

/-- The `add_collection` POST handler from `src/app.py`, with the HTTP
and ORM plumbing made explicit: `suppliers` is the set of known internal
supplier ids, `st` the stored collection list.  Rejects when the supplier
is unknown or the rate is unresolvable; otherwise appends a record with
`fat` rounded to one decimal and `amount = floor(liters * rate)`. -/
def add_collection (suppliers : List ℕ) (st : List Collection) (supplier_id : ℕ)
    (liters fat : ℚ) (milk_type session d : String) (note : Option String) :
    CollectionsResult :=
  if supplier_id ∉ suppliers then ⟨st, some "Supplier not found"⟩
  else
    match find_rate (some fat) milk_type (some d) with
    | none => ⟨st, some (rateNotFoundMsg milk_type fat)⟩
    | some rate =>
      ⟨st ++ [⟨supplier_id, d, session, liters, pyRound1 fat, milk_type, rate,
              ⌊liters * rate⌋, note⟩], none⟩

/-- The `quick_add` POST handler from `src/app.py`: identical to
`add_collection` except that no note is taken. -/
def quick_add (suppliers : List ℕ) (st : List Collection) (supplier_id : ℕ)
    (liters fat : ℚ) (milk_type session d : String) : CollectionsResult :=
  if supplier_id ∉ suppliers then ⟨st, some "Supplier not found"⟩
  else
    match find_rate (some fat) milk_type (some d) with
    | none => ⟨st, some (rateNotFoundMsg milk_type fat)⟩
    | some rate =>
      ⟨st ++ [⟨supplier_id, d, session, liters, pyRound1 fat, milk_type, rate,
              ⌊liters * rate⌋, none⟩], none⟩

/-- The `add_sale` POST handler from `src/app.py`, analogous to
`add_collection` over the sales table. -/
def add_sale (customers : List ℕ) (st : List Sale) (cust_id : ℕ)
    (liters fat : ℚ) (milk_type session d : String) (note : Option String) :
    SalesResult :=
  if cust_id ∉ customers then ⟨st, some "Customer not found"⟩
  else
    match find_rate (some fat) milk_type (some d) with
    | none => ⟨st, some (rateNotFoundMsg milk_type fat)⟩
    | some rate =>
      ⟨st ++ [⟨cust_id, d, session, liters, pyRound1 fat, milk_type, rate,
              ⌊liters * rate⌋, note⟩], none⟩

/-- The `edit_collection` POST handler from `src/app.py`: `cid` is the
position of the edited record in the stored list (`get_or_404` rejects an
unknown id).  On an unresolvable rate it flashes the fixed message
`"Rate not found for this fat value"` and leaves the record unchanged;
otherwise it re-resolves the rate and rewrites the record in place with
`fat` rounded to one decimal and `amount = floor(liters * rate)`. -/
def edit_collection (st : List Collection) (cid : ℕ) (liters fat : ℚ)
    (milk_type session date_str note : String) : CollectionsResult :=
  match st[cid]? with
  | none => ⟨st, some "404 Not Found"⟩
  | some entry =>
    match find_rate (some fat) milk_type (some date_str) with
    | none => ⟨st, some "Rate not found for this fat value"⟩
    | some rate =>
      ⟨st.set cid { entry with
          liters := liters
          fat := pyRound1 fat
          milk_type := milk_type
          session := session
          date := date_str
          rate_per_liter := rate
          amount := ⌊liters * rate⌋
          note := some note }, none⟩

/-- Model of Python's built-in `sum` over a list of integers (left fold
from 0). -/
def pySum (xs : List ℤ) : ℤ := xs.foldl (· + ·) 0

/-- The balance computation of the `supplier_view` route in `src/app.py`:
`total_amount = sum(c.amount for c in cols)`,
`total_withdrawn = sum(w.amount for w in wds)`,
`balance = total_amount - total_withdrawn`. -/
def supplier_balance (cols : List Collection) (wds : List Withdrawal) : ℤ :=
  pySum (cols.map (·.amount)) - pySum (wds.map (·.amount))

/-- Helper: `chartGet` misses exactly the keys outside the chart's
domain. -/
theorem chartGet_eq_none_iff (chart : List (ℚ × ℚ)) (k : ℚ) :
    chartGet chart k = none ↔ k ∉ chart.map Prod.fst := by
  induction chart with
  | nil => simp [chartGet]
  | cons p rest ih =>
    obtain ⟨key, v⟩ := p
    by_cases hk : k = key
    · subst hk
      simp [chartGet]
    · simp [chartGet, hk, ih]

/-- Helper: on a chart with distinct keys, `chartGet` returns exactly the
tabulated value of a present key. -/
theorem chartGet_of_mem (chart : List (ℚ × ℚ)) (k v : ℚ)
    (hnd : (chart.map Prod.fst).Nodup) (hm : (k, v) ∈ chart) :
    chartGet chart k = some v := by
  induction chart with
  | nil => simp at hm
  | cons p rest ih =>
    obtain ⟨key, w⟩ := p
    simp only [List.map_cons, List.nodup_cons] at hnd
    rcases List.mem_cons.mp hm with heq | htail
    · obtain ⟨hk, hv⟩ := Prod.mk.injEq .. ▸ heq
      injection heq with h1 h2
      subst h1; subst h2
      simp [chartGet]
    · have hk : k ≠ key := by
        intro hkk
        subst hkk
        exact hnd.1 (List.mem_map.mpr ⟨(k, v), htail, rfl⟩)
      simpa [chartGet, hk] using ih hnd.2 htail

/-- Helper: the buffalo chart's keys are pairwise distinct. -/
theorem buffalo_keys_nodup : (BUFFALO_RATE_CHART.map Prod.fst).Nodup := by
  norm_num [BUFFALO_RATE_CHART, List.nodup_cons]

/-- Helper: the cow chart's keys are pairwise distinct. -/
theorem cow_keys_nodup : (COW_RATE_CHART.map Prod.fst).Nodup := by
  norm_num [COW_RATE_CHART, List.nodup_cons]

/-- C1: `find_rate` returns the NEW-table buffalo rate even for dates
strictly before the `NEW_RATES_START_DATE` threshold: fat 6.5 dated
2025-12-01 (pre-threshold) resolves to 52.0, the same value as any
post-threshold date, because both date branches of the source return
`BUFFALO_RATE_CHART` — there is no old buffalo table in the code.  This
contradicts the claim that pre-threshold dates get an old-table rate
distinct from the new table's. -/
theorem C1_pre_threshold_buffalo_uses_new_table :
    find_rate (some 6.5) "buffalo" (some "2025-12-01") = some 52 ∧
    find_rate (some 6.5) "buffalo" (some "2026-03-01") = some 52 ∧
    find_rate (some 6.5) "buffalo" (some "2025-12-01") =
      find_rate (some 6.5) "buffalo" (some "2026-03-01") := by
  have h1 : find_rate (some 6.5) "buffalo" (some "2025-12-01") = some 52 := by
    rw [find_rate_not_cow _ _ _ (by decide)]
    norm_num [pyRound, chartGet, BUFFALO_RATE_CHART]
  have h2 : find_rate (some 6.5) "buffalo" (some "2026-03-01") = some 52 := by
    rw [find_rate_not_cow _ _ _ (by decide)]
    norm_num [pyRound, chartGet, BUFFALO_RATE_CHART]
  exact ⟨h1, h2, h1.trans h2.symm⟩

/-- C2 counterexample: the claim's example input fat 4.99 for buffalo does
NOT quantize outside the table — `round(4.99*10)/10 = 5.0`, a defined key
— so `find_rate` returns the tabulated 40.0, not "not found". -/
theorem C2_cex_fat_499_is_in_domain :
    (pyRound ((4.99 : ℚ) * 10) : ℚ) / 10 = 5 ∧
    find_rate (some 4.99) "buffalo" (some "2026-03-01") = some 40 ∧
    find_rate (some 4.99) "buffalo" (some "2026-03-01") ≠ none := by
  have h : find_rate (some 4.99) "buffalo" (some "2026-03-01") = some 40 := by
    rw [find_rate_not_cow _ _ _ (by decide)]
    norm_num [pyRound, chartGet, BUFFALO_RATE_CHART]
  exact ⟨by norm_num [pyRound], h, by simp [h]⟩

/-- C2 (amended: the parenthetical example must be a fat whose quantized
key really is outside the table, e.g. 4.0 for buffalo): whenever the
quantized key `round(fat*10)/10` is a defined key of the applicable table
(the cow table on any date; the new buffalo table on or after the
threshold), `find_rate` returns exactly the tabulated price, and whenever
the quantized key is outside the table's keys it returns `none`. -/
theorem C2_quantized_lookup_exact (f r : ℚ) (d d' : String)
    (hd : NEW_RATES_START_DATE ≤ d') :
    (((pyRound (f * 10) : ℚ) / 10, r) ∈ COW_RATE_CHART →
      find_rate (some f) "cow" (some d) = some r) ∧
    ((pyRound (f * 10) : ℚ) / 10 ∉ COW_RATE_CHART.map Prod.fst →
      find_rate (some f) "cow" (some d) = none) ∧
    (((pyRound (f * 10) : ℚ) / 10, r) ∈ BUFFALO_RATE_CHART →
      find_rate (some f) "buffalo" (some d') = some r) ∧
    ((pyRound (f * 10) : ℚ) / 10 ∉ BUFFALO_RATE_CHART.map Prod.fst →
      find_rate (some f) "buffalo" (some d') = none) := by
  refine ⟨?_, ?_, ?_, ?_⟩
  · intro hm
    rw [find_rate_cow]
    exact chartGet_of_mem _ _ _ cow_keys_nodup hm
  · intro hm
    rw [find_rate_cow]
    exact (chartGet_eq_none_iff _ _).mpr hm
  · intro hm
    rw [find_rate_not_cow _ _ _ (by decide)]
    exact chartGet_of_mem _ _ _ buffalo_keys_nodup hm
  · intro hm
    rw [find_rate_not_cow _ _ _ (by decide)]
    exact (chartGet_eq_none_iff _ _).mpr hm

/-- C2 witness: the amended theorem applied at fat 6.5, rate 52, date
2026-03-01 (post-threshold). -/
theorem C2_quantized_lookup_exact_witness :
    NEW_RATES_START_DATE ≤ "2026-03-01" ∧
    ((((pyRound ((6.5 : ℚ) * 10) : ℚ) / 10, (52 : ℚ)) ∈ COW_RATE_CHART →
      find_rate (some 6.5) "cow" (some "2026-03-01") = some 52) ∧
     ((pyRound ((6.5 : ℚ) * 10) : ℚ) / 10 ∉ COW_RATE_CHART.map Prod.fst →
      find_rate (some 6.5) "cow" (some "2026-03-01") = none) ∧
     ((((pyRound ((6.5 : ℚ) * 10) : ℚ) / 10, (52 : ℚ)) ∈ BUFFALO_RATE_CHART →
      find_rate (some 6.5) "buffalo" (some "2026-03-01") = some 52) ∧
     ((pyRound ((6.5 : ℚ) * 10) : ℚ) / 10 ∉ BUFFALO_RATE_CHART.map Prod.fst →
      find_rate (some 6.5) "buffalo" (some "2026-03-01") = none))) :=
  ⟨String.le_iff_toList_le.mpr (by decide),
   C2_quantized_lookup_exact 6.5 52 "2026-03-01" "2026-03-01"
     (String.le_iff_toList_le.mpr (by decide))⟩

/-- C3: every successful create or edit stores
`amount = floor(liters * rate)` with the rate freshly resolved from
(fat, milk_type, date) and fat rounded to one decimal; in particular
liters 7.35 at rate 48.0 stores amount 352. -/
theorem C3_amount_floor_invariant
    (sup cust : List ℕ) (stc : List Collection) (sts : List Sale)
    (sid : ℕ) (l f r : ℚ) (mt sess d : String) (note : Option String)
    (nt : String) (cid : ℕ)
    (hr : find_rate (some f) mt (some d) = some r) :
    (sid ∈ sup → ∃ e : Collection,
      (add_collection sup stc sid l f mt sess d note).state = stc ++ [e] ∧
      e.rate_per_liter = r ∧ e.amount = ⌊l * r⌋ ∧ e.fat = pyRound1 f ∧ e.liters = l) ∧
    (sid ∈ sup → ∃ e : Collection,
      (quick_add sup stc sid l f mt sess d).state = stc ++ [e] ∧
      e.rate_per_liter = r ∧ e.amount = ⌊l * r⌋ ∧ e.fat = pyRound1 f ∧ e.liters = l) ∧
    (sid ∈ cust → ∃ e : Sale,
      (add_sale cust sts sid l f mt sess d note).state = sts ++ [e] ∧
      e.rate_per_liter = r ∧ e.amount = ⌊l * r⌋ ∧ e.fat = pyRound1 f ∧ e.liters = l) ∧
    (cid < stc.length → ∃ e : Collection,
      (edit_collection stc cid l f mt sess d nt).state = stc.set cid e ∧
      e.rate_per_liter = r ∧ e.amount = ⌊l * r⌋ ∧ e.fat = pyRound1 f ∧ e.liters = l) ∧
    (add_collection [1] [] 1 7.35 6 "buffalo" "morning" "2026-03-05" none).state.map
      (·.amount) = [352] := by
  refine ⟨?_, ?_, ?_, ?_, ?_⟩
  · intro hs
    refine ⟨⟨sid, d, sess, l, pyRound1 f, mt, r, ⌊l * r⌋, note⟩, ?_, rfl, rfl, rfl, rfl⟩
    unfold add_collection
    rw [if_neg (not_not_intro hs), hr]
  · intro hs
    refine ⟨⟨sid, d, sess, l, pyRound1 f, mt, r, ⌊l * r⌋, none⟩, ?_, rfl, rfl, rfl, rfl⟩
    unfold quick_add
    rw [if_neg (not_not_intro hs), hr]
  · intro hs
    refine ⟨⟨sid, d, sess, l, pyRound1 f, mt, r, ⌊l * r⌋, note⟩, ?_, rfl, rfl, rfl, rfl⟩
    unfold add_sale
    rw [if_neg (not_not_intro hs), hr]
  · intro hcid
    have hentry : stc[cid]? = some stc[cid] := List.getElem?_eq_getElem hcid
    refine ⟨{ stc[cid] with
        liters := l, fat := pyRound1 f, milk_type := mt, session := sess,
        date := d, rate_per_liter := r, amount := ⌊l * r⌋, note := some nt },
      ?_, rfl, rfl, rfl, rfl⟩
    unfold edit_collection
    rw [hentry, hr]
  · have hfr : find_rate (some 6) "buffalo" (some "2026-03-05") = some 48 := by
      rw [find_rate_not_cow _ _ _ (by decide)]
      norm_num [pyRound, chartGet, BUFFALO_RATE_CHART]
    unfold add_collection
    rw [if_neg (by decide), hfr]
    simp only [List.nil_append, List.map_cons, List.map_nil]
    norm_num

/-- C3 witness: a concrete successful `add_collection` at liters 7.35,
fat 6.0, buffalo, dated 2026-03-05 (rate 48.0). -/
theorem C3_amount_floor_invariant_witness :
    find_rate (some 6) "buffalo" (some "2026-03-05") = some 48 ∧
    ((1 : ℕ) ∈ [1] → ∃ e : Collection,
      (add_collection [1] [] 1 7.35 6 "buffalo" "morning" "2026-03-05" none).state =
        [] ++ [e] ∧
      e.rate_per_liter = 48 ∧ e.amount = ⌊(7.35 : ℚ) * 48⌋ ∧ e.fat = pyRound1 6 ∧
      e.liters = 7.35) := by
  have hfr : find_rate (some 6) "buffalo" (some "2026-03-05") = some 48 := by
    rw [find_rate_not_cow _ _ _ (by decide)]
    norm_num [pyRound, chartGet, BUFFALO_RATE_CHART]
  exact ⟨hfr, (C3_amount_floor_invariant [1] [] [] [] 1 7.35 6 48 "buffalo" "morning"
    "2026-03-05" none "" 0 hfr).1⟩

/-- C5 counterexample: an edit request with unresolvable rate (fat 4.0,
buffalo) is rejected with the fixed message
`"Rate not found for this fat value"`, which does not name the milk type
(the claim says every rejection names the milk type and fat). -/
theorem C5_cex_edit_message_is_generic :
    find_rate (some 4) "buffalo" (some "2026-03-05") = none ∧
    edit_collection [⟨1, "2026-03-05", "morning", 5, 6, "buffalo", 48, 240, none⟩] 0
        5 4 "buffalo" "morning" "2026-03-05" "" =
      ⟨[⟨1, "2026-03-05", "morning", 5, 6, "buffalo", 48, 240, none⟩],
       some "Rate not found for this fat value"⟩ ∧
    ¬ ("buffalo".toList <:+: "Rate not found for this fat value".toList) := by
  have hfr : find_rate (some 4) "buffalo" (some "2026-03-05") = none := by
    rw [find_rate_not_cow _ _ _ (by decide)]
    norm_num [pyRound, chartGet, BUFFALO_RATE_CHART]
  refine ⟨hfr, ?_, by decide⟩
  unfold edit_collection
  rw [show ([⟨1, "2026-03-05", "morning", 5, 6, "buffalo", 48, 240, none⟩] :
        List Collection)[0]? =
      some ⟨1, "2026-03-05", "morning", 5, 6, "buffalo", 48, 240, none⟩ from rfl, hfr]

/-- C5 (amended: the creation handlers reject with a message naming the
milk type and the fat, while the edit handler rejects with the fixed
generic message `"Rate not found for this fat value"`): whenever the rate
is unresolvable, every handler leaves the stored list exactly as it was,
performs no amount computation, and reports an error. -/
theorem C5_unresolvable_rejected_state_unchanged
    (sup cust : List ℕ) (stc : List Collection) (sts : List Sale)
    (sid : ℕ) (l f : ℚ) (mt sess d : String) (note : Option String)
    (nt : String) (cid : ℕ)
    (hr : find_rate (some f) mt (some d) = none) :
    (sid ∈ sup → add_collection sup stc sid l f mt sess d note =
      ⟨stc, some (rateNotFoundMsg mt f)⟩) ∧
    (sid ∈ sup → quick_add sup stc sid l f mt sess d =
      ⟨stc, some (rateNotFoundMsg mt f)⟩) ∧
    (sid ∈ cust → add_sale cust sts sid l f mt sess d note =
      ⟨sts, some (rateNotFoundMsg mt f)⟩) ∧
    (cid < stc.length → edit_collection stc cid l f mt sess d nt =
      ⟨stc, some "Rate not found for this fat value"⟩) ∧
    mt.toList <:+: (rateNotFoundMsg mt f).toList ∧
    (toString f).toList <:+: (rateNotFoundMsg mt f).toList := by
  refine ⟨?_, ?_, ?_, ?_, ?_, ?_⟩
  · intro hs
    unfold add_collection
    rw [if_neg (not_not_intro hs), hr]
  · intro hs
    unfold quick_add
    rw [if_neg (not_not_intro hs), hr]
  · intro hs
    unfold add_sale
    rw [if_neg (not_not_intro hs), hr]
  · intro hcid
    unfold edit_collection
    rw [List.getElem?_eq_getElem hcid, hr]
  · exact ⟨"Rate not found for ".toList, (" milk with fat " ++ toString f).toList,
      by simp [rateNotFoundMsg]⟩
  · exact ⟨("Rate not found for " ++ mt ++ " milk with fat ").toList, [],
      by simp [rateNotFoundMsg]⟩

/-- C5 witness: the amended theorem applied at fat 4.0, buffalo (whose
quantized key 4.0 is outside the buffalo table). -/
theorem C5_unresolvable_rejected_witness :
    find_rate (some 4) "buffalo" (some "2026-03-05") = none ∧
    ((1 : ℕ) ∈ [1] → add_collection [1] [] 1 5 4 "buffalo" "morning" "2026-03-05" none =
      ⟨[], some (rateNotFoundMsg "buffalo" 4)⟩) := by
  have hfr : find_rate (some 4) "buffalo" (some "2026-03-05") = none := by
    rw [find_rate_not_cow _ _ _ (by decide)]
    norm_num [pyRound, chartGet, BUFFALO_RATE_CHART]
  exact ⟨hfr, (C5_unresolvable_rejected_state_unchanged [1] [] [] [] 1 5 4 "buffalo"
    "morning" "2026-03-05" none "" 0 hfr).1⟩

/-- Helper: `cycleAdd` leaves the window start label unchanged. -/
theorem cycleAdd_cstart (cy : PayCycle) (c : Collection) :
    (cycleAdd cy c).cstart = cy.cstart := by
  unfold cycleAdd
  split <;> rfl

/-- Helper: `cycleAdd` leaves the window end label unchanged. -/
theorem cycleAdd_cend (cy : PayCycle) (c : Collection) :
    (cycleAdd cy c).cend = cy.cend := by
  unfold cycleAdd
  split <;> rfl

/-- Helper: `cycleAdd` adds the record's amount to the cycle amount. -/
theorem cycleAdd_total_amount (cy : PayCycle) (c : Collection) :
    (cycleAdd cy c).total_amount = cy.total_amount + c.amount := by
  unfold cycleAdd
  split <;> rfl

/-- Helper: `cycleAdd` adds the record's liters to the cycle liters. -/
theorem cycleAdd_total_liters (cy : PayCycle) (c : Collection) :
    (cycleAdd cy c).total_liters = cy.total_liters + c.liters := by
  unfold cycleAdd
  split <;> rfl

/-- Helper: `cycleAdd` increments exactly one of the two session counts. -/
theorem cycleAdd_counts (cy : PayCycle) (c : Collection) :
    (cycleAdd cy c).morning.count + (cycleAdd cy c).evening.count =
      (cy.morning.count + cy.evening.count) + 1 := by
  unfold cycleAdd
  split <;> dsimp <;> omega

/-- Helper: a record whose day fails to parse is skipped. -/
theorem cycleStep_of_none (cys : PayCycles) (c : Collection)
    (h : parseDay c.date = none) : cycleStep cys c = cys := by
  unfold cycleStep
  rw [h]

/-- Helper: a record with parsed day in 1–15 goes to cycle 1. -/
theorem cycleStep_of_some_in (cys : PayCycles) (c : Collection) (day : ℤ)
    (h : parseDay c.date = some day) (hin : 1 ≤ day ∧ day ≤ 15) :
    cycleStep cys c = { cys with cycle_1 := cycleAdd cys.cycle_1 c } := by
  unfold cycleStep
  rw [h]
  exact if_pos hin

/-- Helper: a record with any other parsed day goes to cycle 2. -/
theorem cycleStep_of_some_out (cys : PayCycles) (c : Collection) (day : ℤ)
    (h : parseDay c.date = some day) (hout : ¬(1 ≤ day ∧ day ≤ 15)) :
    cycleStep cys c = { cys with cycle_2 := cycleAdd cys.cycle_2 c } := by
  unfold cycleStep
  rw [h]
  exact if_neg hout

/-- Sum of the two cycle amounts of an aggregation state. -/
def totAmount (cys : PayCycles) : ℤ :=
  cys.cycle_1.total_amount + cys.cycle_2.total_amount

/-- Sum of the two cycle liters of an aggregation state. -/
def totLiters (cys : PayCycles) : ℚ :=
  cys.cycle_1.total_liters + cys.cycle_2.total_liters

/-- Sum of the four session counts of an aggregation state. -/
def totCount (cys : PayCycles) : ℕ :=
  (cys.cycle_1.morning.count + cys.cycle_1.evening.count) +
    (cys.cycle_2.morning.count + cys.cycle_2.evening.count)

/-- Helper: one parsed step adds the record's amount to the overall
amount total. -/
theorem cycleStep_totAmount (cys : PayCycles) (c : Collection) (day : ℤ)
    (h : parseDay c.date = some day) :
    totAmount (cycleStep cys c) = totAmount cys + c.amount := by
  by_cases hin : 1 ≤ day ∧ day ≤ 15
  · rw [cycleStep_of_some_in cys c day h hin]
    unfold totAmount
    dsimp
    rw [cycleAdd_total_amount]
    ring
  · rw [cycleStep_of_some_out cys c day h hin]
    unfold totAmount
    dsimp
    rw [cycleAdd_total_amount]
    ring

/-- Helper: one parsed step adds the record's liters to the overall
liters total. -/
theorem cycleStep_totLiters (cys : PayCycles) (c : Collection) (day : ℤ)
    (h : parseDay c.date = some day) :
    totLiters (cycleStep cys c) = totLiters cys + c.liters := by
  by_cases hin : 1 ≤ day ∧ day ≤ 15
  · rw [cycleStep_of_some_in cys c day h hin]
    unfold totLiters
    dsimp
    rw [cycleAdd_total_liters]
    ring
  · rw [cycleStep_of_some_out cys c day h hin]
    unfold totLiters
    dsimp
    rw [cycleAdd_total_liters]
    ring

/-- Helper: one parsed step increments the overall count by one. -/
theorem cycleStep_totCount (cys : PayCycles) (c : Collection) (day : ℤ)
    (h : parseDay c.date = some day) :
    totCount (cycleStep cys c) = totCount cys + 1 := by
  by_cases hin : 1 ≤ day ∧ day ≤ 15
  · rw [cycleStep_of_some_in cys c day h hin]
    unfold totCount
    dsimp
    have := cycleAdd_counts cys.cycle_1 c
    omega
  · rw [cycleStep_of_some_out cys c day h hin]
    unfold totCount
    dsimp
    have := cycleAdd_counts cys.cycle_2 c
    omega

/-- Helper: folding the cycle update over a list of records whose days all
parse adds the record sums to every total. -/
theorem foldl_cycleStep_totals (l : List Collection) :
    ∀ cys : PayCycles, (∀ c ∈ l, (parseDay c.date).isSome) →
      totAmount (l.foldl cycleStep cys) = totAmount cys + (l.map (·.amount)).sum ∧
      totLiters (l.foldl cycleStep cys) = totLiters cys + (l.map (·.liters)).sum ∧
      totCount (l.foldl cycleStep cys) = totCount cys + l.length := by
  induction l with
  | nil => intro cys _; simp
  | cons c t ih =>
    intro cys h
    have hc : (parseDay c.date).isSome := h c (List.mem_cons_self c t)
    obtain ⟨day, hday⟩ := Option.isSome_iff_exists.mp hc
    have ht := ih (cycleStep cys c) (fun x hx => h x (List.mem_cons_of_mem c hx))
    simp only [List.foldl_cons, List.map_cons, List.sum_cons, List.length_cons]
    refine ⟨?_, ?_, ?_⟩
    · rw [ht.1, cycleStep_totAmount cys c day hday]; ring
    · rw [ht.2.1, cycleStep_totLiters cys c day hday]; ring
    · rw [ht.2.2, cycleStep_totCount cys c day hday]; ring

/-- Helper: the fold never touches the cycle-2 end label. -/
theorem foldl_cycleStep_cycle2_cend (l : List Collection) :
    ∀ cys : PayCycles, (l.foldl cycleStep cys).cycle_2.cend = cys.cycle_2.cend := by
  induction l with
  | nil => intro cys; rfl
  | cons c t ih =>
    intro cys
    rw [List.foldl_cons, ih]
    unfold cycleStep
    cases hp : parseDay c.date with
    | none => rfl
    | some day =>
      dsimp only
      split
      · rfl
      · exact cycleAdd_cend cys.cycle_2 c

/-- C4: when every in-month record's day parses, the two cycles partition
the month — assignment is decided solely by the parsed day (1–15 versus
the rest) — and the cycle totals of amount, liters and count sum to the
totals over all in-month records. -/
theorem C4_cycle_partition_sums (collections : List Collection) (year month : ℕ)
    (h : ∀ c ∈ monthly_collections collections year month, (parseDay c.date).isSome) :
    (calculate_payment_cycles collections year month).cycle_1.total_amount +
        (calculate_payment_cycles collections year month).cycle_2.total_amount =
      ((monthly_collections collections year month).map (·.amount)).sum ∧
    (calculate_payment_cycles collections year month).cycle_1.total_liters +
        (calculate_payment_cycles collections year month).cycle_2.total_liters =
      ((monthly_collections collections year month).map (·.liters)).sum ∧
    ((calculate_payment_cycles collections year month).cycle_1.morning.count +
        (calculate_payment_cycles collections year month).cycle_1.evening.count) +
      ((calculate_payment_cycles collections year month).cycle_2.morning.count +
        (calculate_payment_cycles collections year month).cycle_2.evening.count) =
      (monthly_collections collections year month).length ∧
    (∀ (cys : PayCycles) (c : Collection) (day : ℤ), parseDay c.date = some day →
      (1 ≤ day ∧ day ≤ 15 →
        cycleStep cys c = { cys with cycle_1 := cycleAdd cys.cycle_1 c }) ∧
      (¬(1 ≤ day ∧ day ≤ 15) →
        cycleStep cys c = { cys with cycle_2 := cycleAdd cys.cycle_2 c })) := by
  have H := foldl_cycleStep_totals (monthly_collections collections year month)
    (initCycles year month) h
  have h0A : totAmount (initCycles year month) = 0 := rfl
  have h0L : totLiters (initCycles year month) = 0 := by
    unfold totLiters initCycles
    norm_num
  have h0C : totCount (initCycles year month) = 0 := rfl
  refine ⟨?_, ?_, ?_, ?_⟩
  · have := H.1
    rw [h0A, zero_add] at this
    exact this
  · have := H.2.1
    rw [h0L, zero_add] at this
    exact this
  · have := H.2.2
    rw [h0C, zero_add] at this
    exact this
  · intro cys c day hday
    exact ⟨fun hin => cycleStep_of_some_in cys c day hday hin,
           fun hout => cycleStep_of_some_out cys c day hday hout⟩

/-- C4 witness: the partition sums at a concrete two-record February list
(one record per cycle, a third record outside the month). -/
theorem C4_cycle_partition_sums_witness :
    (∀ c ∈ monthly_collections
        [⟨1, "2026-02-05", "morning", 2, 6, "buffalo", 48, 96, none⟩,
         ⟨1, "2026-02-20", "evening", 3, 6, "buffalo", 48, 144, none⟩,
         ⟨1, "2026-01-10", "morning", 4, 6, "buffalo", 48, 192, none⟩] 2026 2,
      (parseDay c.date).isSome) ∧
    (calculate_payment_cycles
        [⟨1, "2026-02-05", "morning", 2, 6, "buffalo", 48, 96, none⟩,
         ⟨1, "2026-02-20", "evening", 3, 6, "buffalo", 48, 144, none⟩,
         ⟨1, "2026-01-10", "morning", 4, 6, "buffalo", 48, 192, none⟩] 2026 2).cycle_1.total_amount +
      (calculate_payment_cycles
        [⟨1, "2026-02-05", "morning", 2, 6, "buffalo", 48, 96, none⟩,
         ⟨1, "2026-02-20", "evening", 3, 6, "buffalo", 48, 144, none⟩,
         ⟨1, "2026-01-10", "morning", 4, 6, "buffalo", 48, 192, none⟩] 2026 2).cycle_2.total_amount =
      ((monthly_collections
        [⟨1, "2026-02-05", "morning", 2, 6, "buffalo", 48, 96, none⟩,
         ⟨1, "2026-02-20", "evening", 3, 6, "buffalo", 48, 144, none⟩,
         ⟨1, "2026-01-10", "morning", 4, 6, "buffalo", 48, 192, none⟩] 2026 2).map (·.amount)).sum :=
  ⟨by decide,
   (C4_cycle_partition_sums
     [⟨1, "2026-02-05", "morning", 2, 6, "buffalo", 48, 96, none⟩,
      ⟨1, "2026-02-20", "evening", 3, 6, "buffalo", 48, 144, none⟩,
      ⟨1, "2026-01-10", "morning", 4, 6, "buffalo", 48, 192, none⟩] 2026 2 (by decide)).1⟩

/-- Helper: folding the cycle update ignores the records whose day fails
to parse. -/
theorem foldl_cycleStep_filter_isSome (l : List Collection) :
    ∀ cys : PayCycles,
      l.foldl cycleStep cys =
        (l.filter (fun c => (parseDay c.date).isSome)).foldl cycleStep cys := by
  induction l with
  | nil => intro cys; rfl
  | cons c t ih =>
    intro cys
    cases hp : parseDay c.date with
    | none =>
      rw [List.foldl_cons, cycleStep_of_none cys c hp,
        List.filter_cons_of_neg (by simp [hp]), ih]
    | some day =>
      rw [List.foldl_cons, List.filter_cons_of_pos (by simp [hp]), List.foldl_cons, ih]

/-- C6: records in the requested month whose day component fails to parse
are skipped and aggregation continues — the result over any list equals
the result over the sublist of records with parseable days. -/
theorem C6_malformed_dates_skipped (collections : List Collection) (year month : ℕ) :
    calculate_payment_cycles collections year month =
      calculate_payment_cycles
        (collections.filter (fun c => (parseDay c.date).isSome)) year month := by
  unfold calculate_payment_cycles monthly_collections
  rw [foldl_cycleStep_filter_isSome, foldl_cycleStep_filter_isSome
    ((collections.filter fun c => (parseDay c.date).isSome).filter
      (fun c => strStartsWith c.date (monthStr year month)))]
  rw [List.filter_filter, List.filter_filter, List.filter_filter]
  congr 1
  refine List.filter_congr ?_
  intro a _
  cases hA : (parseDay a.date).isSome <;> simp [hA]

/-- Helper: the Boolean leap test agrees with the Gregorian leap
condition. -/
theorem isLeapYear_iff (y : ℕ) :
    isLeapYear y = true ↔ ((y % 4 = 0 ∧ y % 100 ≠ 0) ∨ y % 400 = 0) := by
  simp [isLeapYear]

/-- C7: cycle 2 ends on the calendar last day of the month (zero-padded),
`get_last_day_of_month` is the true Gregorian month length (29 for
leap-year February, 28 otherwise, 30/31 elsewhere), and transactions dated
Feb 29 of a leap year or Feb 28 of a non-leap year land in cycle 2. -/
theorem C7_cycle2_ends_on_calendar_month_end (collections : List Collection)
    (year month : ℕ) (h1 : 1 ≤ month) (h2 : month ≤ 12) :
    (calculate_payment_cycles collections year month).cycle_2.cend =
      monthStr year month ++ "-" ++ pad2 (get_last_day_of_month year month) ∧
    (month = 2 → ((year % 4 = 0 ∧ year % 100 ≠ 0) ∨ year % 400 = 0) →
      get_last_day_of_month year month = 29) ∧
    (month = 2 → ¬((year % 4 = 0 ∧ year % 100 ≠ 0) ∨ year % 400 = 0) →
      get_last_day_of_month year month = 28) ∧
    (month = 4 ∨ month = 6 ∨ month = 9 ∨ month = 11 →
      get_last_day_of_month year month = 30) ∧
    (month = 1 ∨ month = 3 ∨ month = 5 ∨ month = 7 ∨ month = 8 ∨ month = 10 ∨
        month = 12 → get_last_day_of_month year month = 31) ∧
    (calculate_payment_cycles
      [⟨1, "2024-02-29", "morning", 3, 6, "buffalo", 48, 144, none⟩]
      2024 2).cycle_2.morning.count = 1 ∧
    (calculate_payment_cycles
        [⟨1, "2024-02-29", "morning", 3, 6, "buffalo", 48, 144, none⟩]
        2024 2).cycle_1.morning.count +
      (calculate_payment_cycles
        [⟨1, "2024-02-29", "morning", 3, 6, "buffalo", 48, 144, none⟩]
        2024 2).cycle_1.evening.count = 0 ∧
    (calculate_payment_cycles
      [⟨1, "2026-02-28", "evening", 3, 6, "buffalo", 48, 144, none⟩]
      2026 2).cycle_2.evening.count = 1 := by
  refine ⟨?_, ?_, ?_, ?_, ?_, by decide, by decide, by decide⟩
  · unfold calculate_payment_cycles
    rw [foldl_cycleStep_cycle2_cend]
    rfl
  · intro hm hl
    subst hm
    unfold get_last_day_of_month
    rw [if_pos rfl, if_pos ((isLeapYear_iff year).mpr hl)]
  · intro hm hl
    subst hm
    unfold get_last_day_of_month
    rw [if_pos rfl, if_neg (fun hh => hl ((isLeapYear_iff year).mp hh))]
  · intro hm
    rcases hm with h | h | h | h <;> subst h <;> rfl
  · intro hm
    rcases hm with h | h | h | h | h | h | h <;> subst h <;> rfl

/-- C7 witness: the month-end label for February 2024 with no records. -/
theorem C7_cycle2_ends_on_calendar_month_end_witness :
    (1 ≤ 2 ∧ 2 ≤ 12) ∧
    (calculate_payment_cycles [] 2024 2).cycle_2.cend =
      monthStr 2024 2 ++ "-" ++ pad2 (get_last_day_of_month 2024 2) :=
  ⟨by decide, (C7_cycle2_ends_on_calendar_month_end [] 2024 2 (by decide) (by decide)).1⟩

/-- The fields of a stored record that `calculate_payment_cycles` actually
reads: date, session, liters and amount. -/
def ReadsEq (a b : Collection) : Prop :=
  a.date = b.date ∧ a.session = b.session ∧ a.liters = b.liters ∧ a.amount = b.amount

/-- Helper: `cycleAdd` depends only on the read fields of the record. -/
theorem cycleAdd_congr (cy : PayCycle) {a b : Collection} (h : ReadsEq a b) :
    cycleAdd cy a = cycleAdd cy b := by
  obtain ⟨-, h2, h3, h4⟩ := h
  unfold cycleAdd
  rw [h2, h3, h4]

/-- Helper: `cycleStep` depends only on the read fields of the record. -/
theorem cycleStep_congr (cys : PayCycles) {a b : Collection} (h : ReadsEq a b) :
    cycleStep cys a = cycleStep cys b := by
  unfold cycleStep
  rw [h.1, cycleAdd_congr cys.cycle_1 h, cycleAdd_congr cys.cycle_2 h]

/-- Helper: the whole aggregation depends only on the read fields of the
records. -/
theorem foldl_monthly_congr (year month : ℕ) :
    ∀ {cs cs' : List Collection}, List.Forall₂ ReadsEq cs cs' → ∀ cys : PayCycles,
      (monthly_collections cs year month).foldl cycleStep cys =
        (monthly_collections cs' year month).foldl cycleStep cys := by
  intro cs cs' h
  induction h with
  | nil => intro cys; rfl
  | @cons a b l l' hab htail ih =>
    intro cys
    unfold monthly_collections
    have hd : strStartsWith b.date (monthStr year month) =
        strStartsWith a.date (monthStr year month) := by rw [hab.1]
    simp only [List.filter_cons]
    rw [hd]
    cases hp : strStartsWith a.date (monthStr year month) with
    | true =>
      rw [if_pos rfl, if_pos rfl, List.foldl_cons, List.foldl_cons,
        cycleStep_congr cys hab]
      exact ih _
    | false =>
      rw [if_neg (by simp), if_neg (by simp)]
      exact ih _

/-- C9: the aggregator is a pure reduction — running it twice on the same
list gives the same structure, and its output depends only on the
date/session/liters/amount fields of the records, with no hidden state. -/
theorem C9_aggregator_pure (cs cs' : List Collection) (year month : ℕ)
    (h : List.Forall₂ ReadsEq cs cs') :
    calculate_payment_cycles cs year month = calculate_payment_cycles cs year month ∧
    calculate_payment_cycles cs year month = calculate_payment_cycles cs' year month := by
  refine ⟨rfl, ?_⟩
  unfold calculate_payment_cycles
  exact foldl_monthly_congr year month h (initCycles year month)

/-- C9 witness: two concrete one-record lists agreeing on the read fields
but differing in fat, milk type, rate and note give identical cycles. -/
theorem C9_aggregator_pure_witness :
    List.Forall₂ ReadsEq
      [⟨1, "2026-02-05", "morning", 2, 6, "buffalo", 48, 96, none⟩]
      [⟨7, "2026-02-05", "morning", 2, 9, "cow", 31, 96, some "edited"⟩] ∧
    calculate_payment_cycles
        [⟨1, "2026-02-05", "morning", 2, 6, "buffalo", 48, 96, none⟩] 2026 2 =
      calculate_payment_cycles
        [⟨7, "2026-02-05", "morning", 2, 9, "cow", 31, 96, some "edited"⟩] 2026 2 :=
  ⟨List.Forall₂.cons ⟨rfl, rfl, rfl, rfl⟩ List.Forall₂.nil,
   (C9_aggregator_pure _ _ 2026 2
     (List.Forall₂.cons ⟨rfl, rfl, rfl, rfl⟩ List.Forall₂.nil)).2⟩

/-- C10: a parsed day outside 1–15 — including calendar-invalid values
such as 0 or 32 — is counted in cycle 2, never validated against the
calendar; only an unparseable day component is skipped. -/
theorem C10_parsed_day_never_validated (cys : PayCycles) (c : Collection) (day : ℤ)
    (h1 : parseDay c.date = some day) (h2 : ¬(1 ≤ day ∧ day ≤ 15)) :
    cycleStep cys c = { cys with cycle_2 := cycleAdd cys.cycle_2 c } ∧
    (∀ c' : Collection, parseDay c'.date = none → cycleStep cys c' = cys) ∧
    (calculate_payment_cycles
      [⟨1, "2026-02-32", "morning", 3, 6, "buffalo", 48, 144, none⟩]
      2026 2).cycle_2.morning.count = 1 ∧
    (calculate_payment_cycles
      [⟨1, "2026-02-0", "morning", 3, 6, "buffalo", 48, 144, none⟩]
      2026 2).cycle_2.morning.count = 1 :=
  ⟨cycleStep_of_some_out cys c day h1 h2,
   fun c' hc' => cycleStep_of_none cys c' hc',
   by decide, by decide⟩

/-- C10 witness: the day-32 record is routed to cycle 2. -/
theorem C10_parsed_day_never_validated_witness :
    parseDay "2026-02-32" = some 32 ∧ ¬((1 : ℤ) ≤ 32 ∧ (32 : ℤ) ≤ 15) ∧
    cycleStep (initCycles 2026 2)
        ⟨1, "2026-02-32", "morning", 3, 6, "buffalo", 48, 144, none⟩ =
      { initCycles 2026 2 with
        cycle_2 := cycleAdd (initCycles 2026 2).cycle_2
          ⟨1, "2026-02-32", "morning", 3, 6, "buffalo", 48, 144, none⟩ } :=
  ⟨by decide, by decide,
   (C10_parsed_day_never_validated (initCycles 2026 2)
     ⟨1, "2026-02-32", "morning", 3, 6, "buffalo", 48, 144, none⟩ 32
     (by decide) (by decide)).1⟩

/-- Helper: Python's `sum` is the list sum. -/
theorem pySum_eq_sum (xs : List ℤ) : pySum xs = xs.sum := by
  have key : ∀ (ys : List ℤ) (a : ℤ), ys.foldl (· + ·) a = a + ys.sum := by
    intro ys
    induction ys with
    | nil => intro a; simp
    | cons x t ih => intro a; simp [ih]; ring
  simpa [pySum] using key xs 0

/-- C8: the supplier balance is the exact signed difference of total
collected amount and total withdrawn amount, with no clamping at zero:
collections totaling 10000 against withdrawals totaling 12000 give
-2000. -/
theorem C8_balance_signed_exact :
    (∀ (cols : List Collection) (wds : List Withdrawal),
      supplier_balance cols wds =
        (cols.map (·.amount)).sum - (wds.map (·.amount)).sum) ∧
    supplier_balance
      [⟨1, "2026-01-05", "morning", 200, 6, "buffalo", 50, 10000, none⟩]
      [⟨1, "2026-01-20", 12000, none⟩] = -2000 := by
  constructor
  · intro cols wds
    unfold supplier_balance
    rw [pySum_eq_sum, pySum_eq_sum]
  · decide
